import Mathlib

/-!
Verification of the n8n Chat Hub attachment service
(`packages/cli/src/modules/chat-hub/chat-hub.attachment.service.ts`,
class `ChatHubAttachmentService`).

The service is an orchestration layer over an external `BinaryDataService`,
a message repository and a knowledge-item repository.  We embed it shallowly:

* JavaScript strings are Lean `String`s; `Buffer`s (decoded byte payloads)
  are `List Nat` (one entry per byte); byte streams are opaque `Nat` handles
  (no claim inspects stream contents).
* Optional / possibly-`undefined` fields are `Option`; JS truthiness on a
  string field (`if (attachment.id)`) is `truthy` / `truthyStr` below
  (`undefined` and the empty string are falsy).
* The external collaborators (`BinaryDataService`, `sanitizeFilename`,
  base64 decode/encode, the two repositories) are an abstract environment
  `Env` of pure functions; fallible calls return `Except String α`.
* Every call the service makes to the binary-data store (or the error log)
  is recorded, in order, in a `List BinaryStoreEvent`, so that claims of the
  form "no external store call happens" are statements about that trace.
* `async`/`await` with thrown errors becomes `Except SvcError α`;
  `BadRequestError` / `NotFoundError` are the corresponding constructors.
-/

/-- JS truthiness of an optional string field: `undefined` and `""` are falsy. -/
def truthy : Option String → Bool
  | some s => s != ""
  | none => false

/-- JS truthiness of a (non-optional) string: only `""` is falsy. -/
def truthyStr (s : String) : Bool := s != ""

/-- JS `String.prototype.startsWith`: code-unit prefix test, embedded as a
character-list prefix test. -/
def jsStartsWith (s pre : String) : Bool := pre.data.isPrefixOf s.data

/-- JS `String.prototype.split` with a single-character separator, on the
character list of a string.  Never returns `[]`; splitting the empty string
yields `[[]]`, matching `"".split('.') === [""]`. -/
def splitOnChar (sep : Char) : List Char → List (List Char)
  | [] => [[]]
  | c :: cs =>
    match splitOnChar sep cs with
    | [] => [[]]
    | p :: ps => if c = sep then [] :: p :: ps else (c :: p) :: ps

/-- JS `s.split(sep)` for a single-character separator `sep`. -/
def jsSplit (sep : Char) (s : String) : List String :=
  (splitOnChar sep s.data).map (fun l => String.mk l)

/-- `private readonly maxTotalSizeBytes = 200 * 1024 * 1024` (200 MB). -/
def maxTotalSizeBytes : Nat := 200 * 1024 * 1024

/-- `private readonly maxKnowledgeItemSizeBytes = 50 * 1024 * 1024` (50 MB). -/
def maxKnowledgeItemSizeBytes : Nat := 50 * 1024 * 1024

/-- A raw `ChatAttachment` uploaded by the caller: base64 `data`, declared
`mimeType` and `fileName`.  `fileName` is optional, matching the defensive
optional chaining `sanitizedFileName?.split('.')` in the source. -/
structure ChatAttachment where
  fileName : Option String
  mimeType : String
  data : String
deriving DecidableEq

/-- The `IBinaryData` record (`n8n-workflow`): `id` is the optional external
binary-store identifier, `data` is either the inline base64 payload, a
`data:` URL, or a storage-mode sentinel once stored externally.
`mimeType` is a plain string (empty covers both absent and `""`, which JS
treats identically as falsy). -/
structure IBinaryData where
  id : Option String := none
  data : String
  mimeType : String
  fileName : Option String := none
  fileSize : Option String := none
  fileExtension : Option String := none
deriving DecidableEq

/-- `FileLocation.ofCustom({ sourceType, pathSegments, sourceId })`. -/
structure FileLocation where
  sourceType : String
  pathSegments : List String
  sourceId : String
deriving DecidableEq

/-- A chat message row, restricted to the field the service reads. -/
structure ChatMessage where
  attachments : Option (List IBinaryData)
deriving DecidableEq

/-- A knowledge-item row, restricted to the fields the service reads. -/
structure ChatHubKnowledgeItem where
  id : String
  attachment : Option IBinaryData
deriving DecidableEq

/-- One external call made by the service, recorded in order.  The first five
constructors are calls into `BinaryDataService`; `logErrorCall` and
`logDebugCall` record error- and debug-level log lines. -/
inductive BinaryStoreEvent where
  | storeCall (location : FileLocation) (buffer : List Nat) (metadata : IBinaryData)
  | getMetadataCall (binaryDataId : String)
  | getAsStreamCall (binaryDataId : String)
  | getAsBufferCall (record : IBinaryData)
  | deleteManyCall (binaryDataIds : List String)
  | logErrorCall (message : String)
  | logDebugCall (message : String)
deriving DecidableEq

/-- Errors thrown by the service: `BadRequestError`, `NotFoundError`, or a
propagated failure of an external collaborator. -/
inductive SvcError where
  | badRequest (message : String)
  | notFound (message : String)
  | external (message : String)
deriving DecidableEq

/-- The stringification of a caught error used by JS template interpolation
(`${cleanupError}`): the error's message text. -/
def svcErrorText : SvcError → String
  | SvcError.badRequest message => message
  | SvcError.notFound message => message
  | SvcError.external message => message

/-- The platform `User` entity, restricted to the `id` field the
knowledge-item service reads. -/
structure User where
  id : String
deriving DecidableEq

/-- The row payload `ChatHubKnowledgeItemService.createKnowledgeItem` passes
to `knowledgeItemRepository.createKnowledgeItem`:
`{ id, type: 'attachment', ownerId: user.id, attachment: storedAttachment }`. -/
structure KnowledgeItemInsert where
  id : String
  type : String
  ownerId : String
  attachment : Option IBinaryData
deriving DecidableEq

/-- The dual-mode retrieval result: `{ type: 'stream', stream, fileSize }`
or `{ type: 'buffer', buffer, fileSize }`. -/
inductive AttachmentResult where
  | stream (handle : Nat) (fileSize : Nat)
  | buffer (bytes : List Nat) (fileSize : Nat)
deriving DecidableEq

/-- The abstract environment: base64 decode/encode (`Buffer.from(s, 'base64')`
and `buffer.toString('base64')`), `sanitizeFilename` from `@n8n/utils`, the
`BinaryDataService` operations, the repository lookups, and (for
`ChatHubKnowledgeItemService.createKnowledgeItem`) the `uuidv4` generator and
the repository's fallible insert-then-read `createKnowledgeItem`. -/
structure Env where
  decode : String → List Nat
  encode : List Nat → String
  sanitizeFilename : Option String → Option String
  store : FileLocation → List Nat → IBinaryData → Except String IBinaryData
  getMetadata : String → Except String Nat
  getAsStream : String → Except String Nat
  getAsBuffer : IBinaryData → Except String (List Nat)
  deleteManyByBinaryDataId : List String → Except String Unit
  getMessageById : String → String → Option ChatMessage
  findKnowledgeItemById : String → Option ChatHubKnowledgeItem
  uuidv4 : String
  createKnowledgeItemRow : KnowledgeItemInsert → Except String ChatHubKnowledgeItem

/-- The `FileLocation` used by `processMessageAttachment`. -/
def messageAttachmentLocation (sessionId messageId : String) : FileLocation :=
  { sourceType := "chat_message_attachment"
    pathSegments := ["chat-hub", "sessions", sessionId, "messages", messageId]
    sourceId := messageId }

/-- The `FileLocation` used by `processKnowledgeItemAttachment`. -/
def knowledgeItemAttachmentLocation (knowledgeItemId : String) : FileLocation :=
  { sourceType := "chat_knowledge_item_attachment"
    pathSegments := ["chat-hub", "knowledge-items", knowledgeItemId]
    sourceId := knowledgeItemId }

/-- The `IBinaryData` metadata record built (identically) by
`processMessageAttachment` and `processKnowledgeItemAttachment`:
sanitize the file name, stringify the byte length, and derive
`fileExtension` as `sanitizedFileName?.split('.').pop()`. -/
def mkStoredBinaryData (env : Env) (attachment : ChatAttachment) (buffer : List Nat) :
    IBinaryData :=
  let sanitizedFileName := env.sanitizeFilename attachment.fileName
  { id := none
    data := attachment.data
    mimeType := attachment.mimeType
    fileName := sanitizedFileName
    fileSize := some (toString buffer.length)
    fileExtension := sanitizedFileName.map (fun s => (jsSplit '.' s).getLastD "") }

/-- `processMessageAttachment`: build the metadata record and store it at the
session/message-scoped location.  The pair's second component is the trace of
binary-store calls made. -/
def processMessageAttachment (env : Env) (sessionId messageId : String)
    (attachment : ChatAttachment) (buffer : List Nat) :
    Except String IBinaryData × List BinaryStoreEvent :=
  let binaryData := mkStoredBinaryData env attachment buffer
  (env.store (messageAttachmentLocation sessionId messageId) buffer binaryData,
    [BinaryStoreEvent.storeCall (messageAttachmentLocation sessionId messageId) buffer binaryData])

/-- `processKnowledgeItemAttachment`: identical record construction, stored at
the knowledge-item-scoped location. -/
def processKnowledgeItemAttachment (env : Env) (knowledgeItemId : String)
    (attachment : ChatAttachment) (buffer : List Nat) :
    Except String IBinaryData × List BinaryStoreEvent :=
  let binaryData := mkStoredBinaryData env attachment buffer
  (env.store (knowledgeItemAttachmentLocation knowledgeItemId) buffer binaryData,
    [BinaryStoreEvent.storeCall (knowledgeItemAttachmentLocation knowledgeItemId) buffer binaryData])

/-- The loop body of `storeMessageAttachments`: iterate over the attachments
carrying the running `totalSize`; decode each payload, add its byte length to
the total, throw `BadRequestError` once the total exceeds
`maxTotalSizeBytes`, otherwise store it and continue.  Mutation of
`totalSize` / `storedAttachments` becomes explicit recursion. -/
def storeMessageAttachmentsGo (env : Env) (sessionId messageId : String) :
    List ChatAttachment → Nat → Except SvcError (List IBinaryData) × List BinaryStoreEvent
  | [], _ => (Except.ok [], [])
  | attachment :: rest, totalSize =>
    let buffer := env.decode attachment.data
    let newTotal := totalSize + buffer.length
    if maxTotalSizeBytes < newTotal then
      (Except.error (SvcError.badRequest
        ("Total size of attachments exceeds maximum size of " ++
          toString (maxTotalSizeBytes / (1024 * 1024)) ++ " MB")), [])
    else
      match processMessageAttachment env sessionId messageId attachment buffer with
      | (Except.error e, evs) => (Except.error (SvcError.external e), evs)
      | (Except.ok stored, evs) =>
        let next := storeMessageAttachmentsGo env sessionId messageId rest newTotal
        (next.1.map (fun out => stored :: out), evs ++ next.2)

/-- `storeMessageAttachments(sessionId, messageId, attachments)`. -/
def storeMessageAttachments (env : Env) (sessionId messageId : String)
    (attachments : List ChatAttachment) :
    Except SvcError (List IBinaryData) × List BinaryStoreEvent :=
  storeMessageAttachmentsGo env sessionId messageId attachments 0

/-- `getMessageAttachment(sessionId, messageId, attachmentIndex)`: look the
message up, index into its attachments, then branch on `attachment.id`
(stream mode) / `attachment.data` (buffer mode) / neither (`NotFoundError`). -/
def getMessageAttachment (env : Env) (sessionId messageId : String)
    (attachmentIndex : Nat) :
    Except SvcError (IBinaryData × AttachmentResult) × List BinaryStoreEvent :=
  match env.getMessageById messageId sessionId with
  | none => (Except.error (SvcError.notFound "Message not found"), [])
  | some message =>
    match message.attachments.bind (fun l => l.get? attachmentIndex) with
    | none => (Except.error (SvcError.notFound "Attachment not found"), [])
    | some attachment =>
      if truthy attachment.id then
        let binaryDataId := attachment.id.getD ""
        match env.getMetadata binaryDataId with
        | Except.error e =>
          (Except.error (SvcError.external e), [BinaryStoreEvent.getMetadataCall binaryDataId])
        | Except.ok fileSize =>
          match env.getAsStream binaryDataId with
          | Except.error e =>
            (Except.error (SvcError.external e),
              [BinaryStoreEvent.getMetadataCall binaryDataId,
                BinaryStoreEvent.getAsStreamCall binaryDataId])
          | Except.ok handle =>
            (Except.ok (attachment, AttachmentResult.stream handle fileSize),
              [BinaryStoreEvent.getMetadataCall binaryDataId,
                BinaryStoreEvent.getAsStreamCall binaryDataId])
      else if truthyStr attachment.data then
        match env.getAsBuffer attachment with
        | Except.error e =>
          (Except.error (SvcError.external e), [BinaryStoreEvent.getAsBufferCall attachment])
        | Except.ok buffer =>
          (Except.ok (attachment, AttachmentResult.buffer buffer buffer.length),
            [BinaryStoreEvent.getAsBufferCall attachment])
      else
        (Except.error (SvcError.notFound "Attachment has no stored file"), [])

/-- `getKnowledgeItemAttachment(knowledgeItemId)`: look the knowledge item up,
take its attachment, then the same stream / buffer / not-found branch as
`getMessageAttachment`. -/
def getKnowledgeItemAttachment (env : Env) (knowledgeItemId : String) :
    Except SvcError (IBinaryData × AttachmentResult) × List BinaryStoreEvent :=
  match (env.findKnowledgeItemById knowledgeItemId).bind (fun item => item.attachment) with
  | none => (Except.error (SvcError.notFound "Knowledge item attachment not found"), [])
  | some attachment =>
    if truthy attachment.id then
      let binaryDataId := attachment.id.getD ""
      match env.getMetadata binaryDataId with
      | Except.error e =>
        (Except.error (SvcError.external e), [BinaryStoreEvent.getMetadataCall binaryDataId])
      | Except.ok fileSize =>
        match env.getAsStream binaryDataId with
        | Except.error e =>
          (Except.error (SvcError.external e),
            [BinaryStoreEvent.getMetadataCall binaryDataId,
              BinaryStoreEvent.getAsStreamCall binaryDataId])
        | Except.ok handle =>
          (Except.ok (attachment, AttachmentResult.stream handle fileSize),
            [BinaryStoreEvent.getMetadataCall binaryDataId,
              BinaryStoreEvent.getAsStreamCall binaryDataId])
    else if truthyStr attachment.data then
      match env.getAsBuffer attachment with
      | Except.error e =>
        (Except.error (SvcError.external e), [BinaryStoreEvent.getAsBufferCall attachment])
      | Except.ok buffer =>
        (Except.ok (attachment, AttachmentResult.buffer buffer buffer.length),
          [BinaryStoreEvent.getAsBufferCall attachment])
    else
      (Except.error (SvcError.notFound "Attachment has no stored file"), [])

/-- The id list `deleteAttachments` passes to the batched delete:
`attachments.flatMap((attachment) => (attachment.id ? [attachment.id] : []))`. -/
def externalIds (attachments : List IBinaryData) : List String :=
  attachments.flatMap (fun attachment =>
    if truthy attachment.id then [attachment.id.getD ""] else [])

/-- `deleteAttachments(attachments)`: one batched
`deleteManyByBinaryDataId` call on the id-bearing records. -/
def deleteAttachments (env : Env) (attachments : List IBinaryData) :
    Except SvcError Unit × List BinaryStoreEvent :=
  match env.deleteManyByBinaryDataId (externalIds attachments) with
  | Except.ok _ => (Except.ok (), [BinaryStoreEvent.deleteManyCall (externalIds attachments)])
  | Except.error e =>
    (Except.error (SvcError.external e),
      [BinaryStoreEvent.deleteManyCall (externalIds attachments)])

/-- `getDataUrl(binaryData)`: return `data:`-prefixed payloads unchanged,
otherwise fetch the bytes, base64-encode, and wrap as
`data:<mimeType>;base64,<payload>` with the `application/octet-stream`
default. -/
def getDataUrl (env : Env) (binaryData : IBinaryData) :
    Except SvcError String × List BinaryStoreEvent :=
  if jsStartsWith binaryData.data "data:" then
    (Except.ok binaryData.data, [])
  else
    match env.getAsBuffer binaryData with
    | Except.error e =>
      (Except.error (SvcError.external e), [BinaryStoreEvent.getAsBufferCall binaryData])
    | Except.ok buffer =>
      let base64Data := env.encode buffer
      let mimeType :=
        if truthyStr binaryData.mimeType then binaryData.mimeType
        else "application/octet-stream"
      (Except.ok ("data:" ++ mimeType ++ ";base64," ++ base64Data),
        [BinaryStoreEvent.getAsBufferCall binaryData])

/-- `storeKnowledgeItemAttachment(knowledgeItemId, attachment)`: decode, check
the 50 MB per-item cap, then store. -/
def storeKnowledgeItemAttachment (env : Env) (knowledgeItemId : String)
    (attachment : ChatAttachment) :
    Except SvcError IBinaryData × List BinaryStoreEvent :=
  let buffer := env.decode attachment.data
  if maxKnowledgeItemSizeBytes < buffer.length then
    (Except.error (SvcError.badRequest
      ("Knowledge item attachment exceeds maximum size of " ++
        toString (maxKnowledgeItemSizeBytes / (1024 * 1024)) ++ " MB")), [])
  else
    match processKnowledgeItemAttachment env knowledgeItemId attachment buffer with
    | (Except.error e, evs) => (Except.error (SvcError.external e), evs)
    | (Except.ok stored, evs) => (Except.ok stored, evs)

/-- `ChatHubKnowledgeItemService.createKnowledgeItem(user, attachment)`
(chat-hub knowledge-item service): generate a fresh uuid; if an attachment
was provided (non-null), store it through the attachment service; insert the
knowledge-item row `{ id, type: 'attachment', ownerId: user.id, attachment }`;
on success log at debug level and return the row.  If the insert fails and an
attachment had been stored, attempt the compensating
`deleteAttachments([storedAttachment])`, logging at error level and
swallowing any failure of that delete, then rethrow the original error. -/
def createKnowledgeItem (env : Env) (user : User)
    (attachment : Option ChatAttachment) :
    Except SvcError ChatHubKnowledgeItem × List BinaryStoreEvent :=
  let id := env.uuidv4
  let storeStep : Except SvcError (Option IBinaryData) × List BinaryStoreEvent :=
    match attachment with
    | none => (Except.ok none, [])
    | some a =>
      match storeKnowledgeItemAttachment env id a with
      | (Except.ok stored, evs) => (Except.ok (some stored), evs)
      | (Except.error e, evs) => (Except.error e, evs)
  match storeStep with
  | (Except.error e, evs) => (Except.error e, evs)
  | (Except.ok storedAttachment, evs) =>
    match env.createKnowledgeItemRow
        { id := id, type := "attachment", ownerId := user.id,
          attachment := storedAttachment } with
    | Except.ok knowledgeItem =>
      (Except.ok knowledgeItem,
        evs ++ [BinaryStoreEvent.logDebugCall
          ("Knowledge item created: " ++ id ++ " by user " ++ user.id)])
    | Except.error error =>
      match storedAttachment with
      | none => (Except.error (SvcError.external error), evs)
      | some stored =>
        match deleteAttachments env [stored] with
        | (Except.ok _, evs2) => (Except.error (SvcError.external error), evs ++ evs2)
        | (Except.error cleanupError, evs2) =>
          (Except.error (SvcError.external error),
            evs ++ evs2 ++
              [BinaryStoreEvent.logErrorCall
                ("Failed to clean up attachment file for knowledge item " ++ id ++ ": " ++
                  svcErrorText cleanupError)])

/-- Decoded byte lengths of a list of raw attachments. -/
def decodedSizes (env : Env) (attachments : List ChatAttachment) : List Nat :=
  attachments.map (fun a => (env.decode a.data).length)

/-- Number of attachments fully stored before the running total crosses
`maxBytes`, starting from a running total `totalSize`. -/
def storedBeforeCap (maxBytes : Nat) : Nat → List Nat → Nat
  | _, [] => 0
  | totalSize, n :: ns =>
    if maxBytes < totalSize + n then 0 else storedBeforeCap maxBytes (totalSize + n) ns + 1

/-- The store-call event `storeMessageAttachments` emits for one attachment. -/
def messageStoreEvent (env : Env) (sessionId messageId : String)
    (a : ChatAttachment) : BinaryStoreEvent :=
  BinaryStoreEvent.storeCall (messageAttachmentLocation sessionId messageId)
    (env.decode a.data) (mkStoredBinaryData env a (env.decode a.data))

deriving instance DecidableEq for Except

/-- A concrete environment for witnesses: base64 decode yields one byte per
payload character, the store echoes the metadata record back, retrieval
calls succeed, and the database insert fails. -/
def witEnv : Env where
  decode := fun s => List.replicate s.length 0
  encode := fun buffer => String.mk (buffer.map (fun _ => 'A'))
  sanitizeFilename := fun name => name
  store := fun _ _ metadata => Except.ok metadata
  getMetadata := fun _ => Except.ok 7
  getAsStream := fun _ => Except.ok 1
  getAsBuffer := fun _ => Except.ok [104, 105]
  deleteManyByBinaryDataId := fun _ => Except.ok ()
  getMessageById := fun _ _ => none
  findKnowledgeItemById := fun _ => none
  uuidv4 := "k1"
  createKnowledgeItemRow := fun _ => Except.error "db insert failed"

/-- `witEnv` with a base64 decode that yields an over-cap payload
(209715201 bytes, one more than the 200 MB aggregate cap and far above the
50 MB per-item cap). -/
def bigEnv : Env :=
  { witEnv with decode := fun _ => List.replicate 209715201 0 }

/-- A small concrete raw attachment (decoded length 8). -/
def attA : ChatAttachment :=
  { fileName := some "notes.txt", mimeType := "text/plain", data := "aGVsbG8=" }

/-- A second raw attachment with a dot-free file name (decoded length 8). -/
def attB : ChatAttachment :=
  { fileName := some "README", mimeType := "text/markdown", data := "IyBIaQ==" }

/-- A stored record carrying an external binary-store id. -/
def attRec : IBinaryData :=
  { id := some "bin-1", data := "filesystem-v2", mimeType := "text/plain"
    fileName := some "a.txt", fileSize := some "2", fileExtension := some "txt" }

/-- `witEnv` with repositories that resolve to `attRec`. -/
def retrEnv : Env :=
  { witEnv with
    getMessageById := fun _ _ => some { attachments := some [attRec] }
    findKnowledgeItemById := fun knowledgeItemId =>
      some { id := knowledgeItemId, attachment := some attRec } }

theorem isPrefixOf_append_self (p r : List Char) : p.isPrefixOf (p ++ r) = true := by
  induction p with
  | nil => simp [List.isPrefixOf]
  | cons c cs ih => simp [List.isPrefixOf, ih]

theorem jsStartsWith_dataUrl (m b : String) :
    jsStartsWith ("data:" ++ m ++ ";base64," ++ b) "data:" = true := by
  rw [jsStartsWith]
  simp only [String.data_append]
  rw [List.append_assoc, List.append_assoc]
  exact isPrefixOf_append_self _ _

/-- C6: `getDataUrl` is idempotent: on a record whose `data` already begins
with `data:` it returns that exact string with no external fetch; and feeding
any successful `getDataUrl` output back in (under any environment) returns it
unchanged with no external fetch. -/
theorem c6_getDataUrl_idem (env env2 : Env) (binaryData : IBinaryData) :
    (jsStartsWith binaryData.data "data:" = true →
      getDataUrl env binaryData = (Except.ok binaryData.data, [])) ∧
    (∀ s evs, getDataUrl env binaryData = (Except.ok s, evs) →
      getDataUrl env2 { binaryData with data := s } = (Except.ok s, [])) := by
  constructor
  · intro h
    simp [getDataUrl, h]
  · intro s evs h
    by_cases hp : jsStartsWith binaryData.data "data:" = true
    · simp only [getDataUrl, hp, if_pos, Prod.mk.injEq] at h
      obtain ⟨h1, _⟩ := h
      obtain rfl : binaryData.data = s := by
        cases h1
        rfl
      simp [getDataUrl, hp]
    · rw [getDataUrl, if_neg hp] at h
      cases hbuf : env.getAsBuffer binaryData with
      | error e => rw [hbuf] at h; exact absurd h (by simp)
      | ok buffer =>
        rw [hbuf] at h
        simp only [Prod.mk.injEq] at h
        obtain ⟨h1, _⟩ := h
        obtain rfl :
            "data:" ++
                (if truthyStr binaryData.mimeType then binaryData.mimeType
                  else "application/octet-stream") ++ ";base64," ++ env.encode buffer = s := by
          cases h1
          rfl
        simp [getDataUrl, jsStartsWith_dataUrl]

/-- C6 witness: a record whose `data` is already a `data:` URL is returned
unchanged with no external fetch. -/
theorem c6_witness :
    jsStartsWith "data:text/plain;base64,aGk=" "data:" = true ∧
    getDataUrl witEnv
        { id := none, data := "data:text/plain;base64,aGk=", mimeType := "text/plain" } =
      (Except.ok "data:text/plain;base64,aGk=", []) :=
  ⟨by decide,
    (c6_getDataUrl_idem witEnv witEnv
      { id := none, data := "data:text/plain;base64,aGk=", mimeType := "text/plain" }).1
      (by decide)⟩

/-- C8: on a record whose `data` does not begin with `data:`, `getDataUrl`
fetches the bytes as a buffer (one `getAsBuffer` call), base64-encodes them,
and returns `data:<mimeType>;base64,<payload>`, defaulting the MIME type to
`application/octet-stream` when the record's `mimeType` is empty/absent. -/
theorem c8_getDataUrl_fetch (env : Env) (binaryData : IBinaryData) (buffer : List Nat)
    (h : jsStartsWith binaryData.data "data:" = false)
    (hbuf : env.getAsBuffer binaryData = Except.ok buffer) :
    getDataUrl env binaryData =
      (Except.ok ("data:" ++
          (if truthyStr binaryData.mimeType then binaryData.mimeType
            else "application/octet-stream") ++ ";base64," ++ env.encode buffer),
        [BinaryStoreEvent.getAsBufferCall binaryData]) := by
  simp [getDataUrl, h, hbuf]

/-- C8 witness: a record with no MIME type and externally-stored data is
wrapped with the `application/octet-stream` default. -/
theorem c8_witness :
    jsStartsWith (IBinaryData.data { id := none, data := "filesystem-v2", mimeType := "" })
        "data:" = false ∧
    witEnv.getAsBuffer { id := none, data := "filesystem-v2", mimeType := "" } =
      Except.ok [104, 105] ∧
    getDataUrl witEnv { id := none, data := "filesystem-v2", mimeType := "" } =
      (Except.ok ("data:" ++
          (if truthyStr (IBinaryData.mimeType { id := none, data := "filesystem-v2", mimeType := "" })
            then IBinaryData.mimeType { id := none, data := "filesystem-v2", mimeType := "" }
            else "application/octet-stream") ++ ";base64," ++ witEnv.encode [104, 105]),
        [BinaryStoreEvent.getAsBufferCall { id := none, data := "filesystem-v2", mimeType := "" }]) :=
  ⟨by decide, rfl,
    c8_getDataUrl_fetch witEnv { id := none, data := "filesystem-v2", mimeType := "" }
      [104, 105] (by decide) rfl⟩

/-- C4: a single knowledge-item attachment whose decoded byte length exceeds
50 MiB (52428800 bytes) makes `storeKnowledgeItemAttachment` throw a
`BadRequestError` naming the 50 MB limit, with an empty call trace — in
particular no external store call is made. -/
theorem c4_storeKnowledgeItemAttachment_cap (env : Env) (knowledgeItemId : String)
    (attachment : ChatAttachment)
    (h : maxKnowledgeItemSizeBytes < (env.decode attachment.data).length) :
    storeKnowledgeItemAttachment env knowledgeItemId attachment =
      (Except.error (SvcError.badRequest
        "Knowledge item attachment exceeds maximum size of 50 MB"), []) := by
  simp only [storeKnowledgeItemAttachment]
  rw [if_pos h]
  decide

/-- C4 witness: a 209715201-byte payload is rejected with the 50 MB error and
no store call. -/
theorem c4_witness :
    maxKnowledgeItemSizeBytes < (bigEnv.decode attA.data).length ∧
    storeKnowledgeItemAttachment bigEnv "k1" attA =
      (Except.error (SvcError.badRequest
        "Knowledge item attachment exceeds maximum size of 50 MB"), []) :=
  ⟨by simp only [bigEnv, witEnv, maxKnowledgeItemSizeBytes, List.length_replicate]; decide,
    c4_storeKnowledgeItemAttachment_cap bigEnv "k1" attA
      (by simp only [bigEnv, witEnv, maxKnowledgeItemSizeBytes, List.length_replicate]; decide)⟩

theorem storeMessageAttachmentsGo_cap (env : Env) (sessionId messageId : String)
    (hstore : ∀ loc buf md, ∃ r, env.store loc buf md = Except.ok r) :
    ∀ (attachments : List ChatAttachment) (totalSize : Nat),
      totalSize ≤ maxTotalSizeBytes →
      maxTotalSizeBytes < totalSize + (decodedSizes env attachments).sum →
      storeMessageAttachmentsGo env sessionId messageId attachments totalSize =
        (Except.error (SvcError.badRequest
          ("Total size of attachments exceeds maximum size of " ++
            toString (maxTotalSizeBytes / (1024 * 1024)) ++ " MB")),
          (attachments.take
            (storedBeforeCap maxTotalSizeBytes totalSize (decodedSizes env attachments))).map
            (messageStoreEvent env sessionId messageId)) := by
  intro attachments
  induction attachments with
  | nil =>
    intro totalSize h1 h2
    simp only [decodedSizes, List.map_nil, List.sum_nil] at h2
    omega
  | cons a rest ih =>
    intro totalSize h1 h2
    simp only [decodedSizes, List.map_cons, List.sum_cons] at h2
    rw [storeMessageAttachmentsGo]
    by_cases hc : maxTotalSizeBytes < totalSize + (env.decode a.data).length
    · rw [if_pos hc]
      simp [decodedSizes, storedBeforeCap, hc]
    · rw [if_neg hc]
      obtain ⟨r, hr⟩ := hstore (messageAttachmentLocation sessionId messageId)
        (env.decode a.data) (mkStoredBinaryData env a (env.decode a.data))
      simp only [processMessageAttachment]
      rw [hr]
      have ihr := ih (totalSize + (env.decode a.data).length) (by omega)
        (by simp only [decodedSizes]; omega)
      rw [ihr]
      simp only [decodedSizes, List.map_cons]
      rw [storedBeforeCap, if_neg hc]
      simp [Except.map, messageStoreEvent, decodedSizes]

/-- C1: when the cumulative decoded byte length of a message-attachment batch
exceeds 200 MiB and the external store itself does not fail,
`storeMessageAttachments` throws a `BadRequestError` naming the 200 MB limit;
its call trace consists of exactly one store call per attachment processed
before the running total crossed the cap (so no store call for the crossing
attachment or any later one), and contains no delete call (no automatic
rollback of the attachments already stored). -/
theorem c1_storeMessageAttachments_cap (env : Env) (sessionId messageId : String)
    (attachments : List ChatAttachment)
    (hstore : ∀ loc buf md, ∃ r, env.store loc buf md = Except.ok r)
    (hsum : maxTotalSizeBytes < (decodedSizes env attachments).sum) :
    (storeMessageAttachments env sessionId messageId attachments).1 =
        Except.error (SvcError.badRequest
          "Total size of attachments exceeds maximum size of 200 MB") ∧
    (storeMessageAttachments env sessionId messageId attachments).2 =
        (attachments.take
          (storedBeforeCap maxTotalSizeBytes 0 (decodedSizes env attachments))).map
          (messageStoreEvent env sessionId messageId) ∧
    ∀ ids, BinaryStoreEvent.deleteManyCall ids ∉
        (storeMessageAttachments env sessionId messageId attachments).2 := by
  have hmsg : ("Total size of attachments exceeds maximum size of " ++
      toString (maxTotalSizeBytes / (1024 * 1024)) ++ " MB") =
      "Total size of attachments exceeds maximum size of 200 MB" := by decide
  have h := storeMessageAttachmentsGo_cap env sessionId messageId hstore attachments 0
    (by omega) (by omega)
  rw [hmsg] at h
  rw [storeMessageAttachments, h]
  refine ⟨rfl, rfl, ?_⟩
  intro ids hmem
  simp only [List.mem_map, messageStoreEvent] at hmem
  obtain ⟨x, -, hx⟩ := hmem
  exact BinaryStoreEvent.noConfusion hx

/-- C1 witness: a single attachment decoding to 209715201 bytes crosses the
cap and yields the 200 MB `BadRequestError`. -/
theorem c1_witness :
    maxTotalSizeBytes < (decodedSizes bigEnv [attA]).sum ∧
    (storeMessageAttachments bigEnv "s1" "m1" [attA]).1 =
      Except.error (SvcError.badRequest
        "Total size of attachments exceeds maximum size of 200 MB") :=
  have hs : maxTotalSizeBytes < (decodedSizes bigEnv [attA]).sum := by
    simp only [decodedSizes, bigEnv, witEnv, List.map_cons, List.map_nil,
      List.length_replicate, List.sum_cons, List.sum_nil, maxTotalSizeBytes]
    decide
  ⟨hs, (c1_storeMessageAttachments_cap bigEnv "s1" "m1" [attA]
    (fun _ _ md => ⟨md, rfl⟩) hs).1⟩

theorem storeMessageAttachmentsGo_ok (env : Env) (sessionId messageId : String) :
    ∀ (attachments : List ChatAttachment) (totalSize : Nat) (out : List IBinaryData),
      (storeMessageAttachmentsGo env sessionId messageId attachments totalSize).1 =
        Except.ok out →
      out.length = attachments.length ∧
      ∀ i (h1 : i < attachments.length) (h2 : i < out.length),
        (processMessageAttachment env sessionId messageId (attachments.get ⟨i, h1⟩)
          (env.decode (attachments.get ⟨i, h1⟩).data)).1 =
          Except.ok (out.get ⟨i, h2⟩) := by
  intro attachments
  induction attachments with
  | nil =>
    intro totalSize out h
    rw [storeMessageAttachmentsGo] at h
    simp only [Except.ok.injEq] at h
    subst h
    exact ⟨rfl, fun i h1 _ => absurd h1 (Nat.not_lt_zero i)⟩
  | cons a rest ih =>
    intro totalSize out h
    rw [storeMessageAttachmentsGo] at h
    by_cases hc : maxTotalSizeBytes < totalSize + (env.decode a.data).length
    · rw [if_pos hc] at h
      exact absurd h (by simp)
    · rw [if_neg hc] at h
      simp only [processMessageAttachment] at h
      cases hr : env.store (messageAttachmentLocation sessionId messageId)
          (env.decode a.data) (mkStoredBinaryData env a (env.decode a.data)) with
      | error e =>
        rw [hr] at h
        exact absurd h (by simp)
      | ok stored =>
        rw [hr] at h
        simp only at h
        cases hnext : (storeMessageAttachmentsGo env sessionId messageId rest
            (totalSize + (env.decode a.data).length)).1 with
        | error e =>
          rw [hnext] at h
          exact absurd h (by simp [Except.map])
        | ok outRest =>
          rw [hnext] at h
          simp only [Except.map, Except.ok.injEq] at h
          subst h
          obtain ⟨hlen, hidx⟩ := ih (totalSize + (env.decode a.data).length) outRest hnext
          refine ⟨by simp [hlen], ?_⟩
          intro i h1 h2
          cases i with
          | zero =>
            simp only [List.get, processMessageAttachment]
            rw [hr]
          | succ n =>
            simp only [List.get]
            exact hidx n (by simpa using h1) (by simpa using h2)

/-- C2: whenever `storeMessageAttachments` returns (rather than throws), the
returned list has exactly one stored record per input attachment, in input
order — the i-th record is the store result for the i-th attachment — and the
empty input list yields the empty output list with no external calls. -/
theorem c2_storeMessageAttachments_shape (env : Env) (sessionId messageId : String)
    (attachments : List ChatAttachment) (out : List IBinaryData)
    (h : (storeMessageAttachments env sessionId messageId attachments).1 = Except.ok out) :
    out.length = attachments.length ∧
    (∀ i (h1 : i < attachments.length) (h2 : i < out.length),
      (processMessageAttachment env sessionId messageId (attachments.get ⟨i, h1⟩)
        (env.decode (attachments.get ⟨i, h1⟩).data)).1 = Except.ok (out.get ⟨i, h2⟩)) ∧
    storeMessageAttachments env sessionId messageId [] = (Except.ok [], []) :=
  have hgo := storeMessageAttachmentsGo_ok env sessionId messageId attachments 0 out h
  ⟨hgo.1, hgo.2, rfl⟩

/-- The record `storeMessageAttachments` produces for `attA` under `witEnv`. -/
def recA : IBinaryData :=
  { id := none, data := "aGVsbG8=", mimeType := "text/plain"
    fileName := some "notes.txt", fileSize := some "8", fileExtension := some "txt" }

/-- The record `storeMessageAttachments` produces for `attB` under `witEnv`. -/
def recB : IBinaryData :=
  { id := none, data := "IyBIaQ==", mimeType := "text/markdown"
    fileName := some "README", fileSize := some "8", fileExtension := some "README" }

/-- C2 witness: a two-attachment batch returns two records in input order. -/
theorem c2_witness :
    (storeMessageAttachments witEnv "s1" "m1" [attA, attB]).1 =
      Except.ok [recA, recB] ∧
    [recA, recB].length = [attA, attB].length :=
  have h : (storeMessageAttachments witEnv "s1" "m1" [attA, attB]).1 =
      Except.ok [recA, recB] := by decide
  ⟨h, (c2_storeMessageAttachments_shape witEnv "s1" "m1" [attA, attB] [recA, recB] h).1⟩

/-- C3: retrieval dispatch on a resolved attachment record, for both
`getMessageAttachment` and `getKnowledgeItemAttachment` (assuming the
external store calls themselves succeed): a (truthy) `id` yields the
stream-mode result with the store's metadata `fileSize`; no `id` but a
non-empty `data` payload yields the buffer-mode result sized by the buffer;
neither yields the `NotFoundError`. -/
theorem c3_retrieval_modes (env : Env) (sessionId messageId knowledgeItemId : String)
    (attachmentIndex : Nat) (message : ChatMessage) (item : ChatHubKnowledgeItem)
    (attachment : IBinaryData) (fileSize handle : Nat) (buffer : List Nat)
    (hmsg : env.getMessageById messageId sessionId = some message)
    (hatt : message.attachments.bind (fun l => l.get? attachmentIndex) = some attachment)
    (hki : env.findKnowledgeItemById knowledgeItemId = some item)
    (hka : item.attachment = some attachment)
    (hmeta : env.getMetadata (attachment.id.getD "") = Except.ok fileSize)
    (hstream : env.getAsStream (attachment.id.getD "") = Except.ok handle)
    (hbuf : env.getAsBuffer attachment = Except.ok buffer) :
    (truthy attachment.id = true →
      (getMessageAttachment env sessionId messageId attachmentIndex).1 =
        Except.ok (attachment, AttachmentResult.stream handle fileSize) ∧
      (getKnowledgeItemAttachment env knowledgeItemId).1 =
        Except.ok (attachment, AttachmentResult.stream handle fileSize)) ∧
    (truthy attachment.id = false → truthyStr attachment.data = true →
      (getMessageAttachment env sessionId messageId attachmentIndex).1 =
        Except.ok (attachment, AttachmentResult.buffer buffer buffer.length) ∧
      (getKnowledgeItemAttachment env knowledgeItemId).1 =
        Except.ok (attachment, AttachmentResult.buffer buffer buffer.length)) ∧
    (truthy attachment.id = false → truthyStr attachment.data = false →
      (getMessageAttachment env sessionId messageId attachmentIndex).1 =
        Except.error (SvcError.notFound "Attachment has no stored file") ∧
      (getKnowledgeItemAttachment env knowledgeItemId).1 =
        Except.error (SvcError.notFound "Attachment has no stored file")) := by
  simp only [List.get?_eq_getElem?] at hatt
  refine ⟨fun h1 => ⟨?_, ?_⟩, fun h1 h2 => ⟨?_, ?_⟩, fun h1 h2 => ⟨?_, ?_⟩⟩
  · simp [getMessageAttachment, hmsg, hatt, h1, hmeta, hstream]
  · simp [getKnowledgeItemAttachment, hki, hka, h1, hmeta, hstream]
  · simp [getMessageAttachment, hmsg, hatt, h1, h2, hbuf]
  · simp [getKnowledgeItemAttachment, hki, hka, h1, h2, hbuf]
  · simp [getMessageAttachment, hmsg, hatt, h1, h2]
  · simp [getKnowledgeItemAttachment, hki, hka, h1, h2]

/-- C3 witness: an id-bearing record resolves to the stream-mode result on
both retrieval paths. -/
theorem c3_witness :
    truthy attRec.id = true ∧
    (getMessageAttachment retrEnv "s1" "m1" 0).1 =
      Except.ok (attRec, AttachmentResult.stream 1 7) ∧
    (getKnowledgeItemAttachment retrEnv "k1").1 =
      Except.ok (attRec, AttachmentResult.stream 1 7) :=
  have hc := c3_retrieval_modes retrEnv "s1" "m1" "k1" 0
    { attachments := some [attRec] } { id := "k1", attachment := some attRec }
    attRec 7 1 [104, 105] rfl rfl rfl rfl rfl rfl rfl
  ⟨by decide, (hc.1 (by decide)).1, (hc.1 (by decide)).2⟩

/-- C9: when a record carries both a truthy external `id` and a truthy inline
`data` payload, both retrieval paths return the stream-mode result from the
external store and never consult the inline data — no `getAsBuffer` call
appears in either call trace. -/
theorem c9_retrieval_prefers_external (env : Env)
    (sessionId messageId knowledgeItemId : String) (attachmentIndex : Nat)
    (message : ChatMessage) (item : ChatHubKnowledgeItem)
    (attachment : IBinaryData) (fileSize handle : Nat)
    (hmsg : env.getMessageById messageId sessionId = some message)
    (hatt : message.attachments.bind (fun l => l.get? attachmentIndex) = some attachment)
    (hki : env.findKnowledgeItemById knowledgeItemId = some item)
    (hka : item.attachment = some attachment)
    (hid : truthy attachment.id = true)
    (hdata : truthyStr attachment.data = true)
    (hmeta : env.getMetadata (attachment.id.getD "") = Except.ok fileSize)
    (hstream : env.getAsStream (attachment.id.getD "") = Except.ok handle) :
    (getMessageAttachment env sessionId messageId attachmentIndex).1 =
      Except.ok (attachment, AttachmentResult.stream handle fileSize) ∧
    (getKnowledgeItemAttachment env knowledgeItemId).1 =
      Except.ok (attachment, AttachmentResult.stream handle fileSize) ∧
    (∀ record, BinaryStoreEvent.getAsBufferCall record ∉
      (getMessageAttachment env sessionId messageId attachmentIndex).2) ∧
    (∀ record, BinaryStoreEvent.getAsBufferCall record ∉
      (getKnowledgeItemAttachment env knowledgeItemId).2) := by
  simp only [List.get?_eq_getElem?] at hatt
  refine ⟨?_, ?_, ?_, ?_⟩
  · simp [getMessageAttachment, hmsg, hatt, hid, hmeta, hstream]
  · simp [getKnowledgeItemAttachment, hki, hka, hid, hmeta, hstream]
  · intro record
    simp [getMessageAttachment, hmsg, hatt, hid, hmeta, hstream]
  · intro record
    simp [getKnowledgeItemAttachment, hki, hka, hid, hmeta, hstream]

/-- C9 witness: `attRec` has both `id` and `data` truthy; retrieval streams
and its trace contains no buffer fetch. -/
theorem c9_witness :
    truthy attRec.id = true ∧ truthyStr attRec.data = true ∧
    (getMessageAttachment retrEnv "s1" "m1" 0).2 =
      [BinaryStoreEvent.getMetadataCall "bin-1", BinaryStoreEvent.getAsStreamCall "bin-1"] ∧
    (getKnowledgeItemAttachment retrEnv "k1").1 =
      Except.ok (attRec, AttachmentResult.stream 1 7) :=
  have hc := c9_retrieval_prefers_external retrEnv "s1" "m1" "k1" 0
    { attachments := some [attRec] } { id := "k1", attachment := some attRec }
    attRec 7 1 rfl rfl rfl rfl (by decide) (by decide) rfl rfl
  ⟨by decide, by decide, by decide, hc.2.1⟩

theorem externalIds_nil :
    ∀ (attachments : List IBinaryData),
      (∀ a ∈ attachments, truthy a.id = false) → externalIds attachments = [] := by
  intro attachments h
  induction attachments with
  | nil => rfl
  | cons a rest ih =>
    have ha := h a (by simp)
    have hrest : externalIds rest = [] := ih (fun x hx => h x (by simp [hx]))
    simp only [externalIds] at hrest ⊢
    simp [ha, hrest]

/-- The call trace of `deleteAttachments` is always exactly one batched
delete call carrying the filtered id list. -/
theorem deleteAttachments_events (env : Env) (attachments : List IBinaryData) :
    (deleteAttachments env attachments).2 =
      [BinaryStoreEvent.deleteManyCall (externalIds attachments)] := by
  rw [deleteAttachments]
  cases env.deleteManyByBinaryDataId (externalIds attachments) <;> rfl

/-- C5 counterexample: called on the empty list (zero id-bearing records),
`deleteAttachments` still issues a batched delete call to the binary-data
service — carrying an empty id list — so its external call trace is not
empty, contradicting "issues no external delete call". -/
theorem c5_counterexample :
    (∀ a ∈ ([] : List IBinaryData), truthy a.id = false) ∧
    (deleteAttachments witEnv []).2 = [BinaryStoreEvent.deleteManyCall []] ∧
    (deleteAttachments witEnv []).2 ≠ [] :=
  ⟨by simp, rfl, by decide⟩

/-- C5 (amended): with zero id-bearing records, `deleteAttachments` issues a
single batched delete call with the empty id list — requesting no deletions —
and does not throw, provided the service accepts the empty batch. -/
theorem c5_deleteAttachments_noop (env : Env) (attachments : List IBinaryData)
    (hids : ∀ a ∈ attachments, truthy a.id = false)
    (hdel : env.deleteManyByBinaryDataId [] = Except.ok ()) :
    deleteAttachments env attachments =
      (Except.ok (), [BinaryStoreEvent.deleteManyCall []]) := by
  have h := externalIds_nil attachments hids
  rw [deleteAttachments, h, hdel]

/-- C5 witness: the empty input list no-ops with a single empty batched
delete call. -/
theorem c5_witness :
    (∀ a ∈ ([] : List IBinaryData), truthy a.id = false) ∧
    witEnv.deleteManyByBinaryDataId [] = Except.ok () ∧
    deleteAttachments witEnv [] = (Except.ok (), [BinaryStoreEvent.deleteManyCall []]) :=
  ⟨by simp, rfl, c5_deleteAttachments_noop witEnv [] (by simp) rfl⟩

/-- C7: when the knowledge-item attachment was stored and the subsequent
database insert fails, `createKnowledgeItem` invokes the compensating
attachment delete on the stored record (a batched delete call on its filtered
id appears in the trace), the original database failure is what propagates,
and if the compensating delete itself fails an error-level log entry naming
the cleanup error is recorded while the database failure still propagates. -/
theorem c7_createKnowledgeItem_compensates (env : Env) (user : User)
    (attachment : ChatAttachment) (stored : IBinaryData)
    (evs : List BinaryStoreEvent) (dbError : String)
    (hstore : storeKnowledgeItemAttachment env env.uuidv4 attachment =
      (Except.ok stored, evs))
    (hins : env.createKnowledgeItemRow
        { id := env.uuidv4, type := "attachment", ownerId := user.id,
          attachment := some stored } = Except.error dbError) :
    (createKnowledgeItem env user (some attachment)).1 =
      Except.error (SvcError.external dbError) ∧
    BinaryStoreEvent.deleteManyCall (externalIds [stored]) ∈
      (createKnowledgeItem env user (some attachment)).2 ∧
    (∀ e, (deleteAttachments env [stored]).1 = Except.error e →
      BinaryStoreEvent.logErrorCall
          ("Failed to clean up attachment file for knowledge item " ++ env.uuidv4 ++
            ": " ++ svcErrorText e) ∈
        (createKnowledgeItem env user (some attachment)).2) := by
  have hev := deleteAttachments_events env [stored]
  rcases hd : deleteAttachments env [stored] with ⟨res, evs2⟩
  rw [hd] at hev
  simp only at hev
  subst hev
  cases res with
  | ok u =>
    refine ⟨?_, ?_, ?_⟩
    · simp [createKnowledgeItem, hstore, hins, hd]
    · simp [createKnowledgeItem, hstore, hins, hd]
    · intro e he
      exact absurd he (by simp)
  | error e0 =>
    refine ⟨?_, ?_, ?_⟩
    · simp [createKnowledgeItem, hstore, hins, hd]
    · simp [createKnowledgeItem, hstore, hins, hd]
    · intro e he
      obtain rfl : e0 = e := by simpa using he
      simp [createKnowledgeItem, hstore, hins, hd]

/-- C7 witness: under `witEnv` the insert fails, the stored (inline-only)
record is handed to the compensating delete, and the insert failure is what
the caller sees. -/
theorem c7_witness :
    storeKnowledgeItemAttachment witEnv witEnv.uuidv4 attA =
      (Except.ok recA,
        [BinaryStoreEvent.storeCall (knowledgeItemAttachmentLocation "k1")
          (List.replicate 8 0) recA]) ∧
    witEnv.createKnowledgeItemRow
        { id := witEnv.uuidv4, type := "attachment", ownerId := "u1",
          attachment := some recA } = Except.error "db insert failed" ∧
    (createKnowledgeItem witEnv { id := "u1" } (some attA)).1 =
      Except.error (SvcError.external "db insert failed") :=
  have h1 : storeKnowledgeItemAttachment witEnv witEnv.uuidv4 attA =
      (Except.ok recA,
        [BinaryStoreEvent.storeCall (knowledgeItemAttachmentLocation "k1")
          (List.replicate 8 0) recA]) := by decide
  have h2 : witEnv.createKnowledgeItemRow
      { id := witEnv.uuidv4, type := "attachment", ownerId := "u1",
        attachment := some recA } = Except.error "db insert failed" := rfl
  ⟨h1, h2, (c7_createKnowledgeItem_compensates witEnv { id := "u1" } attA recA _
    "db insert failed" h1 h2).1⟩

theorem splitOnChar_not_mem (sep : Char) :
    ∀ (l : List Char), sep ∉ l → splitOnChar sep l = [l] := by
  intro l
  induction l with
  | nil => intro _; rfl
  | cons c cs ih =>
    intro h
    rw [splitOnChar, ih (fun hm => h (List.mem_cons_of_mem c hm))]
    have hc : ¬ c = sep := fun he => h (he ▸ List.mem_cons_self c cs)
    simp [hc]

theorem jsSplit_no_sep (sep : Char) (s : String) (h : sep ∉ s.data) :
    jsSplit sep s = [s] := by
  rw [jsSplit, splitOnChar_not_mem sep s.data h]
  rfl

/-- C10: in the metadata record both `processMessageAttachment` and
`processKnowledgeItemAttachment` hand to the store, a sanitized file name
containing no dot makes `fileExtension` the entire sanitized file name
(`split('.')` yields one segment, whose `pop()` is the whole name); and
`fileExtension` is absent exactly when the sanitized file name is absent. -/
theorem c10_fileExtension_dotless (env : Env) (attachment : ChatAttachment)
    (buffer : List Nat) (sessionId messageId knowledgeItemId : String) :
    (∀ name, env.sanitizeFilename attachment.fileName = some name →
      ('.' : Char) ∉ name.data →
      (mkStoredBinaryData env attachment buffer).fileExtension = some name) ∧
    ((mkStoredBinaryData env attachment buffer).fileExtension = none ↔
      env.sanitizeFilename attachment.fileName = none) ∧
    (processMessageAttachment env sessionId messageId attachment buffer).2 =
      [BinaryStoreEvent.storeCall (messageAttachmentLocation sessionId messageId) buffer
        (mkStoredBinaryData env attachment buffer)] ∧
    (processKnowledgeItemAttachment env knowledgeItemId attachment buffer).2 =
      [BinaryStoreEvent.storeCall (knowledgeItemAttachmentLocation knowledgeItemId) buffer
        (mkStoredBinaryData env attachment buffer)] := by
  refine ⟨?_, ?_, rfl, rfl⟩
  · intro name hn hdot
    simp only [mkStoredBinaryData, hn, Option.map_some']
    rw [jsSplit_no_sep '.' name hdot]
    simp [List.getLastD]
  · simp only [mkStoredBinaryData]
    cases henv : env.sanitizeFilename attachment.fileName <;> simp [henv]

/-- C10 witness: the dot-free sanitized name `README` becomes its own
`fileExtension`. -/
theorem c10_witness :
    witEnv.sanitizeFilename attB.fileName = some "README" ∧
    ('.' : Char) ∉ "README".data ∧
    (mkStoredBinaryData witEnv attB (List.replicate 8 0)).fileExtension = some "README" :=
  ⟨rfl, by decide,
    (c10_fileExtension_dotless witEnv attB (List.replicate 8 0) "s1" "m1" "k1").1
      "README" rfl (by decide)⟩
